import Mathlib

/-!
Shallow embedding of the `Artnet` class from `src/lib/Artnet.ts` (a Deno port
of the node `artnet` client), together with proofs about its per-universe
channel buffers, watermark tracking, frame encoders and throttled sends.

Modelling conventions:
- JS sparse arrays indexed by universe (`this.data`, `this.interval`,
  `this.throttled`, `this.dataChanged`) become functions `Nat → Option _`
  (resp. `Nat → Bool` for the truthiness-checked throttle flags);
  `none` stands for a JS `undefined` entry.
- A DMX channel array is a `List Cell` where `Cell := Option Nat`; a `none`
  cell is a JS array hole (created when an out-of-range write grows the
  array), which `Buffer.from` later coerces to the byte 0.
- Channel values are modelled as natural numbers; `Buffer.from` /
  `new Uint8Array` coercion to bytes is `· % 256` (`toByte`).
- The socket is replaced by a `sent` log: every buffer handed to
  `socket.send` is appended to it.
- `send`'s body up to `await sleep(25)` runs synchronously in JS; it is
  modelled as the function `send`.  The delayed `this.throttled[u] = false`
  after the sleep is the separate event `clearThrottle`.
- `setInterval`/`clearInterval` handles are modelled by a counter
  `nextTimer`; re-arming stores a fresh handle.
- Channels are 1-indexed and the claims only concern start channels ≥ 1, so
  `channel - 1` uses truncated `Nat` subtraction.
-/

set_option maxRecDepth 8000

namespace ArtnetModel

/-- A JS array slot holding a DMX channel value: `none` is an array hole. -/
abbrev Cell := Option Nat

/-- JS `a || d` for numbers (0 and undefined are falsy). -/
def jsOrNat (o : Option Nat) (d : Nat) : Nat :=
  match o with
  | none => d
  | some n => if n = 0 then d else n

/-- JS `a || d` for strings (the empty string and undefined are falsy). -/
def jsOrStr (o : Option String) (d : String) : String :=
  match o with
  | none => d
  | some s => if s = "" then d else s

/-- The optional constructor configuration (`Config` in `module.ts`). -/
structure Config where
  host : Option String
  port : Option Nat
  refresh : Option Nat
  sendAll : Option Bool

/-- The mutable fields of the `Artnet` class, plus a log of the byte buffers
handed to `socket.send`. -/
structure ArtnetState where
  host : String
  port : Nat
  refresh : Nat
  sendAll : Bool
  data : Nat → Option (List Cell)
  interval : Nat → Option Nat
  throttled : Nat → Bool
  dataChanged : Nat → Option Nat
  nextTimer : Nat
  sent : List (List Nat)

/-- Pointwise update of a `Nat`-indexed map (a JS `arr[k] = v` assignment). -/
def upd {α : Type} (f : Nat → α) (k : Nat) (v : α) : Nat → α :=
  fun n => if n = k then v else f n

/-- The constructor `new Artnet(config)`. -/
def mkArtnet (c : Config) : ArtnetState :=
  { host := jsOrStr c.host "255.255.255.255"
    port := jsOrNat c.port 6454
    refresh := jsOrNat c.refresh 4000
    sendAll := c.sendAll.getD false
    data := fun _ => none
    interval := fun _ => none
    throttled := fun _ => false
    dataChanged := fun _ => none
    nextTimer := 0
    sent := [] }

/-- A fresh client built with an empty configuration. -/
def initState : ArtnetState := mkArtnet ⟨none, none, none, none⟩

/-- `Buffer.from` / `Uint8Array` coercion of one JS array slot to a byte:
a hole (`undefined`) becomes 0, a number is truncated mod 256. -/
def toByte (c : Cell) : Nat := (c.getD 0) % 256

/-- `Buffer.from` on a JS array of channel slots. -/
def bufferFrom (l : List Cell) : List Nat := l.map toByte

/-- The channel array the class would use for a universe: the stored one, or
the zero-filled 512-entry array that lazy allocation would create. -/
def bufOf (s : ArtnetState) (u : Nat) : List Cell :=
  (s.data u).getD (List.replicate 512 (some 0))

/-- The observable channel bytes of a universe (holes and absent buffers read
as zero, exactly as every later read of the class would see them). -/
def chObs (s : ArtnetState) (u : Nat) : List Nat :=
  (bufOf s u).map (fun c => c.getD 0)

/-- The observable high watermark of a universe (`this.dataChanged[u]`,
with JS `undefined` reading as 0). -/
def wmObs (s : ArtnetState) (u : Nat) : Nat := (s.dataChanged u).getD 0

/-- `refreshInterval(universe)`: clear this universe's interval timer and arm
a fresh one. -/
def refreshInterval (s : ArtnetState) (uni : Nat) : ArtnetState :=
  { s with interval := upd s.interval uni (some s.nextTimer)
           nextTimer := s.nextTimer + 1 }

/-- `triggerPackage(oem, key, subkey)`: 18-byte trigger header plus 512 zero
payload bytes, coerced to bytes by the `Uint8Array` constructor. -/
def triggerPackage (oem key subkey : Nat) : List Nat :=
  let hOem := (oem / 256) % 256
  let lOem := oem % 256
  let header : List Nat :=
    [65, 114, 116, 45, 78, 101, 116, 0, 0, 153, 0, 14, 0, 0, hOem, lOem, key, subkey]
  (header ++ List.replicate 512 0).map (· % 256)

/-- `triggerPackage` as the method it is in the source: it never reads or
writes `this`, so the state passes through untouched. -/
def triggerPackageM (s : ArtnetState) (oem key subkey : Nat) :
    ArtnetState × List Nat :=
  (s, triggerPackage oem key subkey)

/-- The length adjustment at the top of `artdmxPackage`:
`if (length % 2) { length += 1 }`. -/
def evenUp (n : Nat) : Nat := if n % 2 = 1 then n + 1 else n

/-- `artdmxPackage(universe, length)`: ArtDmx header plus the prefix of the
universe's channel array, allocating that array if absent.  `lengthArg = none`
models calling with an `undefined` length, which the JS default turns into 2. -/
def artdmxPackage (s : ArtnetState) (uni : Nat) (lengthArg : Option Nat) :
    ArtnetState × List Nat :=
  let length0 := lengthArg.getD 2
  let length := evenUp length0
  let hUni := (uni / 256) % 256
  let lUni := uni % 256
  let hLen := (length / 256) % 256
  let lLen := length % 256
  let header : List Nat :=
    [65, 114, 116, 45, 78, 101, 116, 0, 0, 80, 0, 14, 0, 0, lUni, hUni, hLen, lLen]
  let s1 := if (s.data uni).isSome then s
            else { s with data := upd s.data uni (some (List.replicate 512 (some 0))) }
  let arr := (s1.data uni).getD []
  (s1, bufferFrom (header.map some ++ arr.take (hLen * 256 + lLen)))

/-- The bytes `artdmxPackage` produces, as a function of the channel array it
reads; used to state that the encoder output depends only on its arguments
and the buffer contents. -/
def artdmxBytes (arr : List Cell) (uni : Nat) (length0 : Nat) : List Nat :=
  let length := evenUp length0
  let hUni := (uni / 256) % 256
  let lUni := uni % 256
  let hLen := (length / 256) % 256
  let lLen := length % 256
  bufferFrom
    ([65, 114, 116, 45, 78, 101, 116, 0, 0, 80, 0, 14, 0, 0, lUni, hUni, hLen, lLen].map some
      ++ arr.take (hLen * 256 + lLen))

/-- Outcome of a send-related call: resolved, or rejected with the
`RangeError("Call already pending")` throttle rejection. -/
inductive SendResult where
  | ok
  | busy
deriving DecidableEq

/-- `send(universe, refresh)` up to (and including) handing the buffer to the
socket; the post-`sleep(25)` unthrottling is the separate `clearThrottle`. -/
def send (s0 : ArtnetState) (uni : Nat) (refresh0 : Bool) :
    ArtnetState × SendResult :=
  let refresh := if s0.sendAll then true else refresh0
  let s1 := refreshInterval s0 uni
  if s1.throttled uni then (s1, .busy)
  else
    let s2 := { s1 with throttled := upd s1.throttled uni true }
    let p := artdmxPackage s2 uni
      (if refresh then some 512 else s2.dataChanged uni)
    let s3 := { p.1 with dataChanged := upd p.1.dataChanged uni (some 0) }
    ({ s3 with sent := s3.sent ++ [p.2] }, .ok)

/-- The `await sleep(25); this.throttled[universe] = false` tail of `send`. -/
def clearThrottle (s : ArtnetState) (uni : Nat) : ArtnetState :=
  { s with throttled := upd s.throttled uni false }

/-- The value argument of `set`: a single number or a JS array of numbers. -/
inductive SetValue where
  | num (v : Nat)
  | arr (vs : List Nat)
deriving DecidableEq

/-- Reading `arr[i]` from a JS channel array (`undefined` past the end). -/
def readCell (l : List Cell) (i : Nat) : Cell := l.getD i none

/-- Writing `arr[i] = v` to a JS channel array: in-range writes replace the
slot, out-of-range writes grow the array with holes. -/
def writeCell (l : List Cell) (i : Nat) (v : Nat) : List Cell :=
  if i < l.length then l.set i (some v)
  else l ++ List.replicate (i - l.length) none ++ [some v]

/-- The `for` loop of `set` over an array value: `index = channel + i - 1`,
write on difference, track the highest changed 1-indexed channel. -/
def setLoop (l : List Cell) (wm : Nat) (index : Nat) (vs : List Nat) :
    List Cell × Nat :=
  match vs with
  | [] => (l, wm)
  | v :: rest =>
      if readCell l index = some v then
        setLoop l wm (index + 1) rest
      else
        setLoop (writeCell l index v)
          (if index + 1 > wm then index + 1 else wm) (index + 1) rest

/-- `set(value, channel, uni)`. -/
def setOp (s0 : ArtnetState) (value : SetValue) (channel : Nat) (uni : Nat) :
    ArtnetState × SendResult :=
  let s1 := if (s0.data uni).isSome then s0
            else { s0 with data := upd s0.data uni (some (List.replicate 512 (some 0))) }
  let wm0 := (s1.dataChanged uni).getD 0
  let s2 := { s1 with dataChanged := upd s1.dataChanged uni (some wm0) }
  let arr := (s2.data uni).getD []
  let step : List Cell × Nat :=
    match value with
    | .arr vs =>
        if vs.length > 0 then setLoop arr wm0 (channel - 1) vs else (arr, wm0)
    | .num v =>
        if readCell arr (channel - 1) = some v then (arr, wm0)
        else (writeCell arr (channel - 1) v,
              if channel > wm0 then channel else wm0)
  let s3 := { s2 with data := upd s2.data uni (some step.1)
                      dataChanged := upd s2.dataChanged uni (some step.2) }
  if step.2 = 0 then (s3, .ok) else send s3 uni false

/-- `setHost(host)`. -/
def setHost (s : ArtnetState) (h : String) : ArtnetState := { s with host := h }

/-- `setPort(port)`; the boolean records whether the guard threw. -/
def setPort (s : ArtnetState) (p : Nat) : ArtnetState × Bool :=
  if s.host = "255.255.255.255" then (s, true) else ({ s with port := p }, false)

/-- `close()`: every armed interval timer is cleared. -/
def close (s : ArtnetState) : ArtnetState := { s with interval := fun _ => none }

/-- The events that can hit the per-uni state after construction:
public calls, a refresh-timer firing (`send(u, true)`), and the delayed
unthrottling at the end of a send's cooldown. -/
inductive Op where
  | setop (v : SetValue) (ch : Nat) (uni : Nat)
  | timerFire (uni : Nat)
  | cooldown (uni : Nat)
  | hostOp (h : String)
  | portOp (p : Nat)
  | closeOp

/-- One step of the event semantics. -/
def applyOp (s : ArtnetState) (op : Op) : ArtnetState :=
  match op with
  | .setop v ch u => (setOp s v ch u).1
  | .timerFire u => (send s u true).1
  | .cooldown u => clearThrottle s u
  | .hostOp h => setHost s h
  | .portOp p => (setPort s p).1
  | .closeOp => close s

/-- Folding a sequence of events. -/
def applyOps (s : ArtnetState) (ops : List Op) : ArtnetState :=
  ops.foldl applyOp s

/-- Folding a sequence of `set` calls (value, channel, uni). -/
def applySets (s : ArtnetState) (l : List (SetValue × Nat × Nat)) : ArtnetState :=
  l.foldl (fun s x => (setOp s x.1 x.2.1 x.2.2).1) s

/-- Number of channel slots a `set` value argument addresses. -/
def valCount : SetValue → Nat
  | .num _ => 1
  | .arr vs => vs.length

/-- A `set` call on uni `u` that stores nothing: every addressed slot
already holds exactly the given value. -/
def noWriteB (s : ArtnetState) (u : Nat) (v : SetValue) (ch : Nat) : Bool :=
  match v with
  | .num n => readCell (bufOf s u) (ch - 1) == some n
  | .arr vs =>
      (List.range vs.length).all
        (fun i => readCell (bufOf s u) (ch - 1 + i) == some (vs.getD i 0))

/-- An event that does not store a differing value into uni `u`. -/
def NonDiffering (op : Op) (u : Nat) (s : ArtnetState) : Bool :=
  match op with
  | .setop v ch u2 => (u2 != u) || noWriteB s u2 v ch
  | _ => true

/-- A sequence of events none of which stores a differing value into `u`,
each judged against the state it actually runs in. -/
def NonDiffSeq (u : Nat) : ArtnetState → List Op → Bool
  | _, [] => true
  | s, op :: rest => NonDiffering op u s && NonDiffSeq u (applyOp s op) rest

/-- The length field of an encoded data frame (bytes 16 and 17, high byte
first). -/
def encLen (frame : List Nat) : Nat := frame.getD 16 0 * 256 + frame.getD 17 0

/-- The payload length the spec's scheduler step 3 prescribes for a
non-full send: the watermark with a minimum of 2, rounded up to even. -/
def specLen (wm : Nat) : Nat :=
  let m := max wm 2
  if m % 2 = 1 then m + 1 else m

/-! ### Basic facts about the state operations -/

@[simp] lemma upd_same {α : Type} (f : Nat → α) (k : Nat) (v : α) :
    upd f k v k = v := by simp [upd]

@[simp] lemma upd_ne {α : Type} (f : Nat → α) {k n : Nat} (h : n ≠ k) (v : α) :
    upd f k v n = f n := by simp [upd, h]

@[simp] lemma refreshInterval_data (s : ArtnetState) (u : Nat) :
    (refreshInterval s u).data = s.data := rfl

@[simp] lemma refreshInterval_throttled (s : ArtnetState) (u : Nat) :
    (refreshInterval s u).throttled = s.throttled := rfl

@[simp] lemma refreshInterval_dataChanged (s : ArtnetState) (u : Nat) :
    (refreshInterval s u).dataChanged = s.dataChanged := rfl

@[simp] lemma refreshInterval_sent (s : ArtnetState) (u : Nat) :
    (refreshInterval s u).sent = s.sent := rfl

@[simp] lemma refreshInterval_sendAll (s : ArtnetState) (u : Nat) :
    (refreshInterval s u).sendAll = s.sendAll := rfl

@[simp] lemma refreshInterval_host (s : ArtnetState) (u : Nat) :
    (refreshInterval s u).host = s.host := rfl

@[simp] lemma refreshInterval_port (s : ArtnetState) (u : Nat) :
    (refreshInterval s u).port = s.port := rfl

lemma artdmx_data_self (s : ArtnetState) (u : Nat) (la : Option Nat) :
    ((artdmxPackage s u la).1).data u = some (bufOf s u) := by
  cases hd : s.data u <;> simp [artdmxPackage, bufOf, hd]

lemma artdmx_data_ne (s : ArtnetState) (u : Nat) (la : Option Nat)
    {v : Nat} (h : v ≠ u) : ((artdmxPackage s u la).1).data v = s.data v := by
  cases hd : s.data u <;> simp [artdmxPackage, hd, h]

@[simp] lemma artdmx_throttled (s : ArtnetState) (u : Nat) (la : Option Nat) :
    ((artdmxPackage s u la).1).throttled = s.throttled := by
  cases hd : s.data u <;> simp [artdmxPackage, hd]

@[simp] lemma artdmx_dataChanged (s : ArtnetState) (u : Nat) (la : Option Nat) :
    ((artdmxPackage s u la).1).dataChanged = s.dataChanged := by
  cases hd : s.data u <;> simp [artdmxPackage, hd]

@[simp] lemma artdmx_interval (s : ArtnetState) (u : Nat) (la : Option Nat) :
    ((artdmxPackage s u la).1).interval = s.interval := by
  cases hd : s.data u <;> simp [artdmxPackage, hd]

@[simp] lemma artdmx_sent (s : ArtnetState) (u : Nat) (la : Option Nat) :
    ((artdmxPackage s u la).1).sent = s.sent := by
  cases hd : s.data u <;> simp [artdmxPackage, hd]

@[simp] lemma artdmx_host (s : ArtnetState) (u : Nat) (la : Option Nat) :
    ((artdmxPackage s u la).1).host = s.host := by
  cases hd : s.data u <;> simp [artdmxPackage, hd]

@[simp] lemma artdmx_port (s : ArtnetState) (u : Nat) (la : Option Nat) :
    ((artdmxPackage s u la).1).port = s.port := by
  cases hd : s.data u <;> simp [artdmxPackage, hd]

@[simp] lemma artdmx_sendAll (s : ArtnetState) (u : Nat) (la : Option Nat) :
    ((artdmxPackage s u la).1).sendAll = s.sendAll := by
  cases hd : s.data u <;> simp [artdmxPackage, hd]

@[simp] lemma artdmx_nextTimer (s : ArtnetState) (u : Nat) (la : Option Nat) :
    ((artdmxPackage s u la).1).nextTimer = s.nextTimer := by
  cases hd : s.data u <;> simp [artdmxPackage, hd]

lemma artdmx_snd (s : ArtnetState) (u : Nat) (la : Option Nat) :
    (artdmxPackage s u la).2 = artdmxBytes (bufOf s u) u (la.getD 2) := by
  cases hd : s.data u <;> simp [artdmxPackage, artdmxBytes, bufOf, hd]

/-- The argument `refresh ? 512 : this.dataChanged[universe]` passed to the
encoder by a send that passed the throttle check. -/
def sendLenArg (s : ArtnetState) (u : Nat) (r : Bool) : Option Nat :=
  if (if s.sendAll then true else r) then some 512 else s.dataChanged u

lemma send_busy (s : ArtnetState) (u : Nat) (r : Bool)
    (h : s.throttled u = true) : send s u r = (refreshInterval s u, .busy) := by
  simp [send, h]

lemma send_ok (s : ArtnetState) (u : Nat) (r : Bool)
    (h : s.throttled u = false) :
    send s u r =
      (let s1 := refreshInterval s u
       let s2 := { s1 with throttled := upd s1.throttled u true }
       let p := artdmxPackage s2 u (sendLenArg s u r)
       ({ p.1 with dataChanged := upd p.1.dataChanged u (some 0)
                   sent := p.1.sent ++ [p.2] }, .ok)) := by
  simp [send, h, sendLenArg]

lemma send_result (s : ArtnetState) (u : Nat) (r : Bool) :
    (send s u r).2 = if s.throttled u then .busy else .ok := by
  by_cases h : s.throttled u
  · simp [send_busy s u r h, h]
  · simp [send_ok s u r (by simpa using h), h]

lemma send_dataChanged_self (s : ArtnetState) (u : Nat) (r : Bool)
    (h : s.throttled u = false) :
    (send s u r).1.dataChanged u = some 0 := by
  simp [send_ok s u r h]

lemma send_dataChanged_busy (s : ArtnetState) (u : Nat) (r : Bool)
    (h : s.throttled u = true) :
    (send s u r).1.dataChanged = s.dataChanged := by
  simp [send_busy s u r h]

lemma send_dataChanged_ne (s : ArtnetState) (u : Nat) (r : Bool)
    {v : Nat} (h : v ≠ u) :
    (send s u r).1.dataChanged v = s.dataChanged v := by
  by_cases ht : s.throttled u
  · simp [send_busy s u r ht]
  · simp [send_ok s u r (by simpa using ht), h]

lemma send_sent_ok (s : ArtnetState) (u : Nat) (r : Bool)
    (h : s.throttled u = false) :
    (send s u r).1.sent =
      s.sent ++ [artdmxBytes (bufOf s u) u ((sendLenArg s u r).getD 2)] := by
  simp [send_ok s u r h, artdmx_snd]
  rfl

lemma send_data_ne (s : ArtnetState) (u : Nat) (r : Bool) {v : Nat}
    (h : v ≠ u) : (send s u r).1.data v = s.data v := by
  by_cases ht : s.throttled u
  · simp [send_busy s u r ht]
  · simp [send_ok s u r (by simpa using ht)]
    exact artdmx_data_ne _ u _ h

lemma send_data_self_ok (s : ArtnetState) (u : Nat) (r : Bool)
    (h : s.throttled u = false) :
    (send s u r).1.data u = some (bufOf s u) := by
  simp [send_ok s u r h]
  exact artdmx_data_self _ u _

@[simp] lemma clearThrottle_data (s : ArtnetState) (u : Nat) :
    (clearThrottle s u).data = s.data := rfl

@[simp] lemma clearThrottle_dataChanged (s : ArtnetState) (u : Nat) :
    (clearThrottle s u).dataChanged = s.dataChanged := rfl

@[simp] lemma clearThrottle_sent (s : ArtnetState) (u : Nat) :
    (clearThrottle s u).sent = s.sent := rfl

lemma upd_upd {α : Type} (f : Nat → α) (k : Nat) (a b : α) :
    upd (upd f k a) k b = upd f k b := by
  funext n
  by_cases h : n = k <;> simp [upd, h]

/-! ### A functional decomposition of `set` -/

/-- The channel-array mutation and watermark computation performed by the
body of `set` (the two value-shape branches), before the send decision. -/
def setStep (s : ArtnetState) (value : SetValue) (channel u : Nat) :
    List Cell × Nat :=
  let wm0 := wmObs s u
  let arr := bufOf s u
  match value with
  | .arr vs =>
      if vs.length > 0 then setLoop arr wm0 (channel - 1) vs else (arr, wm0)
  | .num v =>
      if readCell arr (channel - 1) = some v then (arr, wm0)
      else (writeCell arr (channel - 1) v, if channel > wm0 then channel else wm0)

lemma setOp_eq (s : ArtnetState) (value : SetValue) (ch u : Nat) :
    setOp s value ch u =
      (let st := setStep s value ch u
       let s3 := { s with data := upd s.data u (some st.1)
                          dataChanged := upd s.dataChanged u (some st.2) }
       if st.2 = 0 then (s3, .ok) else send s3 u false) := by
  cases hd : s.data u <;>
    simp [setOp, setStep, bufOf, wmObs, hd, upd_upd]

lemma setLoop_noWrite (vs : List Nat) (l : List Cell) (wm index : Nat)
    (h : ∀ i, i < vs.length → readCell l (index + i) = some (vs.getD i 0)) :
    setLoop l wm index vs = (l, wm) := by
  induction vs generalizing index with
  | nil => rfl
  | cons v rest ih =>
      have h0 : readCell l index = some v := by
        have := h 0 (by simp)
        simpa using this
      have hrest : ∀ i, i < rest.length → readCell l (index + 1 + i) = some (rest.getD i 0) := by
        intro i hi
        have := h (i + 1) (by simpa using Nat.succ_lt_succ hi)
        simpa [Nat.add_assoc, Nat.add_comm 1 i] using this
      simp [setLoop, h0, ih (index + 1) hrest]

lemma setStep_noWrite (s : ArtnetState) (value : SetValue) (ch u : Nat)
    (h : noWriteB s u value ch = true) :
    setStep s value ch u = (bufOf s u, wmObs s u) := by
  cases value with
  | num n =>
      have : readCell (bufOf s u) (ch - 1) = some n := by
        simpa [noWriteB] using h
      simp [setStep, this]
  | arr vs =>
      by_cases hl : vs.length > 0
      · have hall : ∀ i, i < vs.length →
            readCell (bufOf s u) (ch - 1 + i) = some (vs.getD i 0) := by
          have h2 : ∀ i, i < vs.length →
              readCell (bufOf s u) (ch - 1 + i) = some (vs[i]?.getD 0) := by
            simpa [noWriteB] using h
          intro i hi
          simpa [List.getD] using h2 i hi
        simp [setStep, hl, setLoop_noWrite vs _ _ _ hall]
      · simp [setStep, hl]

lemma setOp_noChange (s : ArtnetState) (value : SetValue) (ch u : Nat)
    (h0 : wmObs s u = 0) (hnw : noWriteB s u value ch = true) :
    setOp s value ch u =
      ({ s with data := upd s.data u (some (bufOf s u))
                dataChanged := upd s.dataChanged u (some 0) }, .ok) := by
  rw [setOp_eq]
  simp [setStep_noWrite s value ch u hnw, h0]

lemma setOp_dataChanged_ne (s : ArtnetState) (value : SetValue) (ch : Nat)
    {u v : Nat} (h : v ≠ u) :
    (setOp s value ch u).1.dataChanged v = s.dataChanged v := by
  rw [setOp_eq]
  by_cases hz : (setStep s value ch u).2 = 0
  · simp [hz, h]
  · simp only [hz, if_false]
    rw [send_dataChanged_ne _ _ _ h]
    simp [h]

/-! ### Preservation of a zero watermark (claim C6 machinery) -/

lemma step_keeps_zero (s : ArtnetState) (op : Op) (u : Nat)
    (h0 : s.dataChanged u = some 0) (hnd : NonDiffering op u s = true) :
    (applyOp s op).dataChanged u = some 0 := by
  cases op with
  | setop v ch u2 =>
      by_cases he : u2 = u
      · subst he
        have hnw : noWriteB s u2 v ch = true := by
          simpa [NonDiffering] using hnd
        have hw : wmObs s u2 = 0 := by simp [wmObs, h0]
        simp [applyOp, setOp_noChange s v ch u2 hw hnw]
      · have h2 : u ≠ u2 := fun hh => he hh.symm
        rw [applyOp, setOp_dataChanged_ne s v ch h2]
        exact h0
  | timerFire u2 =>
      by_cases he : u2 = u
      · subst he
        by_cases ht : s.throttled u2
        · rw [applyOp, send_dataChanged_busy s u2 true ht]
          exact h0
        · exact send_dataChanged_self s u2 true (by simpa using ht)
      · have h2 : u ≠ u2 := fun hh => he hh.symm
        rw [applyOp, send_dataChanged_ne s u2 true h2]
        exact h0
  | cooldown u2 => simpa [applyOp, clearThrottle] using h0
  | hostOp hh => simpa [applyOp, setHost] using h0
  | portOp p =>
      by_cases hb : s.host = "255.255.255.255" <;>
        simp [applyOp, setPort, hb, h0]
  | closeOp => simpa [applyOp, close] using h0

lemma seq_keeps_zero (u : Nat) (ops : List Op) :
    ∀ s, s.dataChanged u = some 0 → NonDiffSeq u s ops = true →
      (applyOps s ops).dataChanged u = some 0 := by
  induction ops with
  | nil =>
      intro s h0 _
      simpa [applyOps] using h0
  | cons op rest ih =>
      intro s h0 hseq
      have h1 : NonDiffering op u s = true ∧
          NonDiffSeq u (applyOp s op) rest = true := by
        simpa [NonDiffSeq] using hseq
      have h2 := step_keeps_zero s op u h0 h1.1
      simpa [applyOps] using ih (applyOp s op) h2 h1.2

/-! ### Concrete run used by counterexamples

`csA`: a fresh client after `set(255, 1, 0)` — the send was initiated, so
universe 0 is throttled and its watermark is reset.
`csB`: then `set(9, 3, 0)` — the buffer now stores 9 at channel 3, but the
send was rejected as busy, so the watermark 3 is still pending.
`csC`: the 25 ms cooldown then elapsed, clearing the throttle flag. -/

def csA : ArtnetState := (setOp initState (.num 255) 1 0).1

def csB : ArtnetState := (setOp csA (.num 9) 3 0).1

def csC : ArtnetState := clearThrottle csB 0

/-! ### Claim C6 -/

/-- Claim C6: immediately after a send for universe `u` is initiated (the request
was not rejected as busy), `this.dataChanged[u]` is exactly 0, and it stays 0
under every subsequent event (sets that store nothing new into `u`, sets on
other universes, timer fires, cooldowns, host/port changes, close) until a
`set` stores a value differing from the stored one at some channel of `u`. -/
theorem watermark_zero_after_send (s : ArtnetState) (u : Nat) (r : Bool)
    (ops : List Op) (h : s.throttled u = false)
    (hseq : NonDiffSeq u (send s u r).1 ops = true) :
    (send s u r).1.dataChanged u = some 0 ∧
    (applyOps (send s u r).1 ops).dataChanged u = some 0 := by
  have h0 := send_dataChanged_self s u r h
  exact ⟨h0, seq_keeps_zero u ops _ h0 hseq⟩

/-- Witness for C6: a send on a fresh client, followed by a cooldown, an
identical-value `set` and a timer fire, leaves the watermark at 0. -/
theorem watermark_zero_after_send_check :
    (send initState 0 false).1.dataChanged 0 = some 0 ∧
    (applyOps (send initState 0 false).1
      [.cooldown 0, .setop (.num 0) 1 0, .timerFire 0]).dataChanged 0 = some 0 :=
  watermark_zero_after_send initState 0 false
    [.cooldown 0, .setop (.num 0) 1 0, .timerFire 0] (by decide) (by decide)

/-! ### Claim C7 -/

/-- Counterexample for claim C7: in state `csC`, channel 3 of universe 0 already
stores the value 9, yet `set(9, 3, 0)` — an identical-value set — still
triggers a send: a second frame is handed to the transport, because the
watermark left pending by the earlier busy-rejected send is still nonzero. -/
theorem identical_set_can_send :
    readCell (bufOf csC 0) 2 = some 9 ∧
    (setOp csC (.num 9) 3 0).1.sent.length = 2 ∧
    csC.sent.length = 1 := by decide

/-- Claim C7 (amended): a `set` whose value equals the stored value at the
addressed channel is a no-op that reports success — provided the universe
has no pending watermark (`highWatermark[u] = 0`, which holds whenever no
earlier send of `u` was rejected as busy): no frame is handed to the
transport, and watermark, channel values, throttle flag and timer are
unchanged. -/
theorem identical_set_noop_when_idle (s : ArtnetState) (v ch u : Nat)
    (hch : 1 ≤ ch)
    (hid : readCell (bufOf s u) (ch - 1) = some v)
    (h0 : wmObs s u = 0) :
    (setOp s (.num v) ch u).2 = .ok ∧
    (setOp s (.num v) ch u).1.sent = s.sent ∧
    (∀ w, wmObs (setOp s (.num v) ch u).1 w = wmObs s w) ∧
    (∀ w, chObs (setOp s (.num v) ch u).1 w = chObs s w) ∧
    (setOp s (.num v) ch u).1.throttled = s.throttled ∧
    (setOp s (.num v) ch u).1.interval = s.interval := by
  have hnw : noWriteB s u (.num v) ch = true := by
    simp [noWriteB, hid]
  have he := setOp_noChange s (.num v) ch u h0 hnw
  rw [he]
  refine ⟨rfl, rfl, ?_, ?_, rfl, rfl⟩
  · intro w
    by_cases hw : w = u
    · subst hw
      simp only [wmObs, upd_same, Option.getD_some]
      simpa [wmObs] using h0.symm
    · simp [wmObs, hw]
  · intro w
    by_cases hw : w = u
    · subst hw
      simp [chObs, bufOf]
    · simp [chObs, bufOf, hw]

/-- Witness for C7 (amended): at `csA` (fresh client after `set(255,1,0)`)
channel 1 stores 255 and the watermark is 0; `set(255, 1, 0)` is a no-op. -/
theorem identical_set_noop_when_idle_check :
    (setOp csA (.num 255) 1 0).2 = .ok ∧
    (setOp csA (.num 255) 1 0).1.sent = csA.sent ∧
    (∀ w, wmObs (setOp csA (.num 255) 1 0).1 w = wmObs csA w) ∧
    (∀ w, chObs (setOp csA (.num 255) 1 0).1 w = chObs csA w) ∧
    (setOp csA (.num 255) 1 0).1.throttled = csA.throttled ∧
    (setOp csA (.num 255) 1 0).1.interval = csA.interval :=
  identical_set_noop_when_idle csA 255 1 0 (by decide) (by decide) (by decide)

/-! ### Claim C10 -/

/-- Counterexample for claim C10: in state `csC` (watermark 3 pending from a
busy-rejected send, cooldown over), `set([], 1, 0)` with an empty array is
not a no-op: it triggers a send — a second frame is handed to the transport
and universe 0 becomes throttled again. -/
theorem empty_set_can_send :
    wmObs csC 0 = 3 ∧
    (setOp csC (.arr []) 1 0).2 = .ok ∧
    (setOp csC (.arr []) 1 0).1.sent.length = 2 ∧
    csC.sent.length = 1 ∧
    (setOp csC (.arr []) 1 0).1.throttled 0 = true ∧
    csC.throttled 0 = false := by decide

/-- Claim C10 (amended): `set` with an empty array of values is a no-op at the
public interface — provided universe `u` has no pending watermark
(`highWatermark[u] = 0`): channel values and watermark are unchanged, no
frame is handed to the transport, throttle flag and timer are untouched,
and the call reports success.  (With a nonzero pending watermark it instead
triggers a send of the pending prefix.) -/
theorem empty_set_noop_when_idle (s : ArtnetState) (ch u : Nat)
    (h0 : wmObs s u = 0) :
    (setOp s (.arr []) ch u).2 = .ok ∧
    (setOp s (.arr []) ch u).1.sent = s.sent ∧
    (∀ w, wmObs (setOp s (.arr []) ch u).1 w = wmObs s w) ∧
    (∀ w, chObs (setOp s (.arr []) ch u).1 w = chObs s w) ∧
    (setOp s (.arr []) ch u).1.throttled = s.throttled ∧
    (setOp s (.arr []) ch u).1.interval = s.interval := by
  have hnw : noWriteB s u (.arr []) ch = true := by
    simp [noWriteB]
  have he := setOp_noChange s (.arr []) ch u h0 hnw
  rw [he]
  refine ⟨rfl, rfl, ?_, ?_, rfl, rfl⟩
  · intro w
    by_cases hw : w = u
    · subst hw
      simp only [wmObs, upd_same, Option.getD_some]
      simpa [wmObs] using h0.symm
    · simp [wmObs, hw]
  · intro w
    by_cases hw : w = u
    · subst hw
      simp [chObs, bufOf]
    · simp [chObs, bufOf, hw]

/-! ### Claim C2 -/

/-- Claim C2: a send requested while `throttled[u]` is true fails with the busy
rejection and leaves the channel values, the watermark, the throttle flags
and the transport log of every universe exactly as they were (only the
refresh timer is re-armed, which the claim does not constrain). -/
theorem busy_send_preserves_buffer (s : ArtnetState) (u : Nat) (r : Bool)
    (h : s.throttled u = true) :
    (send s u r).2 = .busy ∧
    (send s u r).1.data = s.data ∧
    (send s u r).1.dataChanged = s.dataChanged ∧
    (send s u r).1.sent = s.sent ∧
    (send s u r).1.throttled = s.throttled := by
  rw [send_busy s u r h]
  exact ⟨rfl, rfl, rfl, rfl, rfl⟩

/-- Witness for C2: universe 0 of `csA` is throttled, and a send on it is
rejected without touching buffer, watermark or transport log. -/
theorem busy_send_preserves_buffer_check :
    (send csA 0 false).2 = .busy ∧
    (send csA 0 false).1.data = csA.data ∧
    (send csA 0 false).1.dataChanged = csA.dataChanged ∧
    (send csA 0 false).1.sent = csA.sent ∧
    (send csA 0 false).1.throttled = csA.throttled :=
  busy_send_preserves_buffer csA 0 false (by decide)

/-! ### Claim C9 -/

/-- Claim C9: `setPort` throws exactly when the current host is the broadcast
address `255.255.255.255`; on failure the state is completely unchanged,
otherwise only the stored port is replaced by the requested value. -/
theorem setPort_spec (s : ArtnetState) (p : Nat) :
    ((setPort s p).2 = true ↔ s.host = "255.255.255.255") ∧
    ((setPort s p).2 = true → (setPort s p).1 = s) ∧
    ((setPort s p).2 = false → (setPort s p).1 = { s with port := p }) := by
  by_cases hb : s.host = "255.255.255.255" <;> simp [setPort, hb]

/-- Witness for C9: on a fresh client (broadcast host) `setPort` throws and
changes nothing; after `setHost("10.0.0.1")` it succeeds and stores the
port. -/
theorem setPort_spec_check :
    (setPort initState 9999).2 = true ∧
    (setPort initState 9999).1 = initState ∧
    (setPort (setHost initState "10.0.0.1") 9999).2 = false ∧
    (setPort (setHost initState "10.0.0.1") 9999).1 =
      { setHost initState "10.0.0.1" with port := 9999 } := by
  have h1 := setPort_spec initState 9999
  have h2 := setPort_spec (setHost initState "10.0.0.1") 9999
  have hb1 : (setPort initState 9999).2 = true :=
    h1.1.mpr (by decide)
  have hb2 : (setPort (setHost initState "10.0.0.1") 9999).2 = false := by
    have hne : ¬ (setHost initState "10.0.0.1").host = "255.255.255.255" := by decide
    cases hv : (setPort (setHost initState "10.0.0.1") 9999).2
    · rfl
    · exact absurd (h2.1.mp hv) hne
  exact ⟨hb1, h1.2.1 hb1, hb2, h2.2.2 hb2⟩

/-! ### Claim C3 -/

/-- Counterexample for claim C3: two `set` calls with start channels 1 and 600 (both
≥ 1, as the claim allows) leave `highWatermark[0] = 600 > 512`: the first
set throttles universe 0, the second writes channel 600, its send is
rejected as busy, and the out-of-range watermark survives. -/
theorem watermark_can_exceed_512 :
    ¬ (wmObs (applySets initState [(.num 255, 1, 0), (.num 5, 600, 0)]) 0 ≤ 512) := by
  decide

/-- The structural invariant behind the spec's watermark bound: every
watermark is at most 512 and every allocated channel array has exactly 512
entries. -/
def BufInv (s : ArtnetState) : Prop :=
  (∀ u, wmObs s u ≤ 512) ∧ (∀ u a, s.data u = some a → a.length = 512)

lemma bufOf_length (s : ArtnetState) (u : Nat)
    (hinv : ∀ a, s.data u = some a → a.length = 512) :
    (bufOf s u).length = 512 := by
  cases hd : s.data u with
  | none => simp [bufOf, hd]
  | some a => simpa [bufOf, hd] using hinv a hd

lemma writeCell_length_of_lt (l : List Cell) (i v : Nat) (h : i < l.length) :
    (writeCell l i v).length = l.length := by
  simp [writeCell, h]

lemma setLoop_wm_le (vs : List Nat) (l : List Cell) (wm index : Nat)
    (hwm : wm ≤ 512) (hidx : index + vs.length ≤ 512) :
    (setLoop l wm index vs).2 ≤ 512 := by
  induction vs generalizing l wm index with
  | nil => simpa [setLoop] using hwm
  | cons v rest ih =>
      have hidx1 : index + 1 + rest.length ≤ 512 := by
        simp only [List.length_cons] at hidx
        omega
      by_cases hr : readCell l index = some v
      · simp only [setLoop, hr, if_true]
        exact ih l wm (index + 1) hwm hidx1
      · simp only [setLoop, hr, if_false]
        refine ih _ _ (index + 1) ?_ hidx1
        by_cases hgt : index + 1 > wm <;> simp [hgt] <;> omega

lemma setLoop_length (vs : List Nat) (l : List Cell) (wm index : Nat)
    (hidx : index + vs.length ≤ l.length) :
    (setLoop l wm index vs).1.length = l.length := by
  induction vs generalizing l wm index with
  | nil => simp [setLoop]
  | cons v rest ih =>
      have hlt : index < l.length := by
        simp only [List.length_cons] at hidx
        omega
      have hidx1 : index + 1 + rest.length ≤ l.length := by
        simp only [List.length_cons] at hidx
        omega
      by_cases hr : readCell l index = some v
      · simp only [setLoop, hr, if_true]
        exact ih l wm (index + 1) hidx1
      · simp only [setLoop, hr, if_false]
        rw [ih _ _ (index + 1) (by rw [writeCell_length_of_lt l index v hlt]; exact hidx1)]
        exact writeCell_length_of_lt l index v hlt

lemma setStep_wm_le (s : ArtnetState) (value : SetValue) (ch u : Nat)
    (hwm : wmObs s u ≤ 512) (hch : 1 ≤ ch)
    (hcnt : ch - 1 + valCount value ≤ 512) :
    (setStep s value ch u).2 ≤ 512 := by
  cases value with
  | num v =>
      have hc : ch ≤ 512 := by
        simp [valCount] at hcnt
        omega
      by_cases hr : readCell (bufOf s u) (ch - 1) = some v
      · simpa [setStep, hr] using hwm
      · simp only [setStep, hr, if_false]
        by_cases hgt : ch > wmObs s u <;> simp [hgt] <;> omega
  | arr vs =>
      by_cases hl : vs.length > 0
      · simp only [setStep, hl, if_true]
        exact setLoop_wm_le vs _ _ _ hwm (by simpa [valCount] using hcnt)
      · simpa [setStep, hl] using hwm

lemma setStep_length (s : ArtnetState) (value : SetValue) (ch u : Nat)
    (hlen : (bufOf s u).length = 512) (hch : 1 ≤ ch)
    (hcnt : ch - 1 + valCount value ≤ 512) :
    (setStep s value ch u).1.length = 512 := by
  cases value with
  | num v =>
      have hc : ch - 1 < (bufOf s u).length := by
        simp [valCount] at hcnt
        omega
      by_cases hr : readCell (bufOf s u) (ch - 1) = some v
      · simpa [setStep, hr] using hlen
      · simp only [setStep, hr, if_false]
        rw [writeCell_length_of_lt _ _ _ hc]
        exact hlen
  | arr vs =>
      by_cases hl : vs.length > 0
      · simp only [setStep, hl, if_true]
        rw [setLoop_length vs _ _ _ (by simp [valCount] at hcnt; omega)]
        exact hlen
      · simpa [setStep, hl] using hlen

lemma send_BufInv (s : ArtnetState) (u : Nat) (r : Bool)
    (hinv : BufInv s) : BufInv (send s u r).1 := by
  constructor
  · intro w
    by_cases hw : w = u
    · subst hw
      by_cases ht : s.throttled w
      · simp only [wmObs]
        rw [send_dataChanged_busy s w r ht]
        exact hinv.1 w
      · simp only [wmObs]
        rw [send_dataChanged_self s w r (by simpa using ht)]
        simp
    · simp only [wmObs]
      rw [send_dataChanged_ne s u r hw]
      exact hinv.1 w
  · intro w a hw
    by_cases hww : w = u
    · subst hww
      by_cases ht : s.throttled w
      · rw [send_busy s w r ht] at hw
        exact hinv.2 w a (by simpa using hw)
      · rw [send_data_self_ok s w r (by simpa using ht)] at hw
        cases hw
        exact bufOf_length s w (fun b hb => hinv.2 w b hb)
    · rw [send_data_ne s u r hww] at hw
      exact hinv.2 w a hw

lemma setOp_BufInv (s : ArtnetState) (value : SetValue) (ch u : Nat)
    (hinv : BufInv s) (hch : 1 ≤ ch)
    (hcnt : ch - 1 + valCount value ≤ 512) :
    BufInv (setOp s value ch u).1 := by
  have hwm := setStep_wm_le s value ch u (hinv.1 u) hch hcnt
  have hlen := setStep_length s value ch u
    (bufOf_length s u (fun a ha => hinv.2 u a ha)) hch hcnt
  have hs3 : BufInv { s with data := upd s.data u (some (setStep s value ch u).1)
                             dataChanged := upd s.dataChanged u (some (setStep s value ch u).2) } := by
    constructor
    · intro w
      by_cases hw : w = u
      · subst hw
        simpa [wmObs, upd] using hwm
      · simpa [wmObs, upd, hw] using hinv.1 w
    · intro w a hw
      by_cases hww : w = u
      · subst hww
        have hw2 : (setStep s value ch w).1 = a := by simpa [upd] using hw
        exact hw2 ▸ hlen
      · simp only [upd, if_neg hww] at hw
        exact hinv.2 w a hw
  rw [setOp_eq]
  by_cases hz : (setStep s value ch u).2 = 0
  · simpa [hz] using hs3
  · simpa [hz] using send_BufInv _ u false hs3

lemma initState_BufInv : BufInv initState := by
  constructor
  · intro u
    simp [wmObs, initState, mkArtnet]
  · intro u a h
    simp [initState, mkArtnet] at h

lemma applySets_BufInv (l : List (SetValue × Nat × Nat)) :
    ∀ s, BufInv s →
      (∀ x ∈ l, 1 ≤ x.2.1 ∧ x.2.1 - 1 + valCount x.1 ≤ 512) →
      BufInv (applySets s l) := by
  induction l with
  | nil =>
      intro s hinv _
      simpa [applySets] using hinv
  | cons x rest ih =>
      intro s hinv hall
      have hx := hall x (by simp)
      have h1 := setOp_BufInv s x.1 x.2.1 x.2.2 hinv hx.1 hx.2
      have hrest : ∀ y ∈ rest, 1 ≤ y.2.1 ∧ y.2.1 - 1 + valCount y.1 ≤ 512 :=
        fun y hy => hall y (by simp [hy])
      simpa [applySets] using ih _ h1 hrest

/-- Claim C3 (amended): for every universe and every sequence of `set` operations
with 1-indexed start channel ≥ 1 whose addressed channel range stays within
1..512 (start channel − 1 plus the number of values is at most 512),
`highWatermark[u]` is at most 512 after each operation.  (Unrestricted
start channels can push the watermark past 512, as the counterexample
shows.) -/
theorem watermark_le_512_inRange (l : List (SetValue × Nat × Nat))
    (h : ∀ x ∈ l, 1 ≤ x.2.1 ∧ x.2.1 - 1 + valCount x.1 ≤ 512) (u : Nat) :
    wmObs (applySets initState l) u ≤ 512 :=
  (applySets_BufInv l initState initState_BufInv h).1 u

/-- Witness for C3 (amended): after an in-range `set(255, 1, 0)` the
watermark of universe 0 is within bound. -/
theorem watermark_le_512_inRange_check :
    wmObs (applySets initState [(.num 255, 1, 0)]) 0 ≤ 512 :=
  watermark_le_512_inRange [(.num 255, 1, 0)] (by decide) 0

/-! ### Encoder output lemmas -/

lemma toByte_some (n : Nat) : toByte (some n) = n % 256 := rfl

lemma bufferFrom_take (l : List Cell) (n : Nat) :
    bufferFrom (l.take n) = (bufferFrom l).take n := by
  simp [bufferFrom, List.map_take]

lemma bufferFrom_length (l : List Cell) : (bufferFrom l).length = l.length := by
  simp [bufferFrom]

lemma mod256_mod256 (x : Nat) : x % 256 % 256 = x % 256 := by omega

lemma artdmxBytes_decomp (arr : List Cell) (u L0 : Nat) :
    artdmxBytes arr u L0 =
      [65, 114, 116, 45, 78, 101, 116, 0, 0, 80, 0, 14, 0, 0,
       u % 256, u / 256 % 256, evenUp L0 / 256 % 256, evenUp L0 % 256]
        ++ bufferFrom (arr.take (evenUp L0 / 256 % 256 * 256 + evenUp L0 % 256)) := by
  simp [artdmxBytes, bufferFrom, toByte, mod256_mod256]

lemma encLen_append18 (a0 a1 a2 a3 a4 a5 a6 a7 a8 a9 a10 a11 a12 a13 a14 a15
    a16 a17 : Nat) (rest : List Nat) :
    encLen ([a0, a1, a2, a3, a4, a5, a6, a7, a8, a9, a10, a11, a12, a13, a14,
      a15, a16, a17] ++ rest) = a16 * 256 + a17 := rfl

lemma encLen_artdmxBytes (arr : List Cell) (u L0 : Nat)
    (h : evenUp L0 < 65536) :
    encLen (artdmxBytes arr u L0) = evenUp L0 := by
  rw [artdmxBytes_decomp, encLen_append18]
  omega

/-! ### Claim C1 -/

/-- Claim C1: for a universe in the 15-bit range and an even requested length
2 ≤ L ≤ 512, the data-frame encoder emits exactly 18 + L bytes: the
`Art-Net\0` protocol ID, opcode `0x5000` low byte first, protocol version
14, sequence 0, physical 0, SubUni `u % 256`, Net `u / 256 % 256`, the
length L high byte first, then the first L stored channel values; the
length field equals the number of payload bytes appended.  (Stated for
well-formed buffers: 512 entries, byte-sized values — exactly what in-range
`set` calls produce.) -/
theorem artdmx_frame_layout (s : ArtnetState) (u L : Nat)
    (hu : u ≤ 32767) (h2 : 2 ≤ L) (h512 : L ≤ 512) (hev : L % 2 = 0)
    (hbuf : ∀ a, s.data u = some a →
      a.length = 512 ∧ ∀ c ∈ a, ∃ v, c = some v ∧ v < 256) :
    (artdmxPackage s u (some L)).2 =
      [65, 114, 116, 45, 78, 101, 116, 0, 0, 80, 0, 14, 0, 0,
       u % 256, u / 256 % 256, L / 256, L % 256] ++ (chObs s u).take L ∧
    ((artdmxPackage s u (some L)).2).length = 18 + L := by
  have hevenUp : evenUp L = L := by
    rw [evenUp, if_neg (by omega : ¬ L % 2 = 1)]
  have hlen : (bufOf s u).length = 512 :=
    bufOf_length s u (fun a ha => (hbuf a ha).1)
  have hcells : ∀ c ∈ bufOf s u, toByte c = c.getD 0 := by
    cases hd : s.data u with
    | none =>
        intro c hc
        have hc2 : c = some 0 := by simpa [bufOf, hd] using hc
        simp [hc2, toByte]
    | some a =>
        intro c hc
        obtain ⟨v, hcv, hv⟩ := (hbuf a hd).2 c (by simpa [bufOf, hd] using hc)
        subst hcv
        simp [toByte]
        omega
  have hobs : bufferFrom (bufOf s u) = chObs s u := by
    simp only [bufferFrom, chObs]
    exact List.map_congr_left hcells
  have hdiv : L / 256 % 256 = L / 256 := by omega
  have htake : L / 256 % 256 * 256 + L % 256 = L := by omega
  rw [artdmx_snd, show (some L).getD 2 = L from rfl, artdmxBytes_decomp,
    hevenUp, htake, hdiv, bufferFrom_take, hobs]
  constructor
  · rfl
  · have hchl : (chObs s u).length = 512 := by
      simp only [chObs, List.length_map]
      exact hlen
    simp only [List.length_append, List.length_take, hchl, List.length_cons,
      List.length_nil]
    omega

/-- Witness for C1: a fresh client, universe 1, length 2. -/
theorem artdmx_frame_layout_check :
    (artdmxPackage initState 1 (some 2)).2 =
      [65, 114, 116, 45, 78, 101, 116, 0, 0, 80, 0, 14, 0, 0,
       1 % 256, 1 / 256 % 256, 2 / 256, 2 % 256] ++ (chObs initState 1).take 2 ∧
    ((artdmxPackage initState 1 (some 2)).2).length = 18 + 2 :=
  artdmx_frame_layout initState 1 2 (by decide) (by decide) (by decide)
    (by decide) (fun a ha => by simp [initState, mkArtnet] at ha)

/-! ### Claim C4 -/

/-- Counterexample for claim C4: after `set(5, 600, 0)` grew universe 0's channel
array to 600 entries, reading a frame of 600 channel bytes returns 600
payload bytes — the promised cap at 512 does not hold (the frame is
618 = 18 + 600 bytes long). -/
theorem readFrame_cap_fails_on_grown_buffer :
    ((artdmxPackage (applySets initState [(.num 5, 600, 0)]) 0 (some 600)).2).length
      = 618 ∧
    ¬ (((artdmxPackage (applySets initState [(.num 5, 600, 0)]) 0
        (some 600)).2).drop 18).length ≤ 512 := by
  decide

/-- Claim C4 (amended): for a requested length n ≥ 1 with `evenUp n < 65536` (the
length field is 16-bit) and a universe whose channel array has not been
grown past 512 entries by out-of-range writes, reading a frame of n channel
bytes returns the first `min (evenUp n) 512` stored bytes — n rounded up to
even and capped at 512 — and a universe never referenced before gets a
zero-filled 512-entry array allocated and yields all-zero bytes. -/
theorem readFrame_even_cap (s : ArtnetState) (u n : Nat)
    (hn : 1 ≤ n) (hn2 : evenUp n < 65536)
    (hbuf : ∀ a, s.data u = some a → a.length = 512) :
    ((artdmxPackage s u (some n)).2).drop 18 =
      (bufferFrom (bufOf s u)).take (min (evenUp n) 512) ∧
    (((artdmxPackage s u (some n)).2).drop 18).length = min (evenUp n) 512 ∧
    min (evenUp n) 512 ≤ 512 ∧
    (s.data u = none →
      (artdmxPackage s u (some n)).1.data u = some (List.replicate 512 (some 0)) ∧
      ((artdmxPackage s u (some n)).2).drop 18 =
        List.replicate (min (evenUp n) 512) 0) := by
  have hlen : (bufOf s u).length = 512 := bufOf_length s u hbuf
  have htake : evenUp n / 256 % 256 * 256 + evenUp n % 256 = evenUp n := by
    omega
  have hdrop : ((artdmxPackage s u (some n)).2).drop 18 =
      (bufferFrom (bufOf s u)).take (min (evenUp n) 512) := by
    rw [artdmx_snd, show (some n).getD 2 = n from rfl, artdmxBytes_decomp, htake]
    rw [show (18 : Nat) = ([65, 114, 116, 45, 78, 101, 116, 0, 0, 80, 0, 14, 0, 0,
      u % 256, u / 256 % 256, evenUp n / 256 % 256, evenUp n % 256] : List Nat).length
      from rfl, List.drop_left]
    rw [bufferFrom_take]
    rcases le_or_lt (evenUp n) 512 with hc | hc
    · rw [Nat.min_eq_left hc]
    · rw [Nat.min_eq_right (Nat.le_of_lt hc)]
      rw [List.take_of_length_le (by rw [bufferFrom_length, hlen]; omega),
        List.take_of_length_le (by rw [bufferFrom_length, hlen])]
  refine ⟨hdrop, ?_, Nat.min_le_right _ _, ?_⟩
  · rw [hdrop, List.length_take, bufferFrom_length, hlen]
    omega
  · intro hd
    constructor
    · rw [artdmx_data_self]
      simp [bufOf, hd]
    · rw [hdrop]
      rw [show bufOf s u = List.replicate 512 (some 0) by simp [bufOf, hd]]
      rw [show bufferFrom (List.replicate 512 (some 0)) = List.replicate 512 0 by
        simp [bufferFrom, List.map_replicate, toByte]]
      rw [List.take_replicate]
      congr 1
      omega

/-- Witness for C4 (amended): a fresh client, universe 0, requested length 3
(odd, rounded up to 4). -/
theorem readFrame_even_cap_check :
    ((artdmxPackage initState 0 (some 3)).2).drop 18 =
      (bufferFrom (bufOf initState 0)).take (min (evenUp 3) 512) ∧
    (((artdmxPackage initState 0 (some 3)).2).drop 18).length = min (evenUp 3) 512 ∧
    min (evenUp 3) 512 ≤ 512 ∧
    (initState.data 0 = none →
      (artdmxPackage initState 0 (some 3)).1.data 0 = some (List.replicate 512 (some 0)) ∧
      ((artdmxPackage initState 0 (some 3)).2).drop 18 =
        List.replicate (min (evenUp 3) 512) 0) :=
  readFrame_even_cap initState 0 3 (by decide) (by decide)
    (fun a ha => by simp [initState, mkArtnet] at ha)

/-! ### Claim C5 -/

lemma specLen_eq_evenUp (wm : Nat) (h : 1 ≤ wm) : specLen wm = evenUp wm := by
  rcases Nat.lt_or_ge wm 2 with h2 | h2
  · have hw1 : wm = 1 := by omega
    subst hw1
    simp [specLen, evenUp]
  · simp only [specLen, evenUp, Nat.max_eq_left h2]

/-- Counterexample for claim C5: the public call `set(1, 65536, 0)` on a
fresh client triggers a send that passes the throttle check with watermark
65536, yet the frame handed to the transport is the bare 18-byte header:
its length field is `(hLen << 8) + lLen = 0` (the field computation wraps
modulo 2^16) and not a single payload byte is appended — nothing like the
claimed "watermark with a minimum of 2, rounded up to even"
(`specLen 65536 = 65536`). -/
theorem send_length_field_wraps :
    (setOp initState (.num 1) 65536 0).2 = .ok ∧
    (setOp initState (.num 1) 65536 0).1.sent.length = 1 ∧
    ((setOp initState (.num 1) 65536 0).1.sent.getD 0 []).length = 18 ∧
    encLen ((setOp initState (.num 1) 65536 0).1.sent.getD 0 []) = 0 ∧
    ¬ (0 : Nat) = specLen 65536 := by
  decide

lemma artdmxBytes_length (arr : List Cell) (u L0 : Nat)
    (hl : arr.length = 512) (hle : evenUp L0 ≤ 512) :
    (artdmxBytes arr u L0).length = 18 + evenUp L0 := by
  have hcnt : evenUp L0 / 256 % 256 * 256 + evenUp L0 % 256 = evenUp L0 := by
    omega
  rw [artdmxBytes_decomp, hcnt, List.length_append, bufferFrom_length,
    List.length_take, hl]
  simp only [List.length_cons, List.length_nil]
  omega

/-- Claim C5 (amended): a send that passes the throttle check resolves and
hands the transport exactly one new frame; both its 16-bit length field and
its payload byte count equal 512 when the send is a forced full refresh or
the global `sendAll` flag is set, and otherwise — provided the universe's
current watermark is in 1..512 and its channel array has the standard 512
entries (both guaranteed when every `set` stays within channels 1..512) —
both equal the watermark with a minimum of 2, rounded up to even.
Out-of-range watermarks are instead encoded modulo 2^16, as the
counterexample shows. -/
theorem send_payload_length_inRange (s : ArtnetState) (u : Nat) (r : Bool)
    (h : s.throttled u = false)
    (hwm : r = false → s.sendAll = false → 1 ≤ wmObs s u ∧ wmObs s u ≤ 512)
    (hbuf : (bufOf s u).length = 512) :
    (send s u r).2 = .ok ∧
    ∃ frame, (send s u r).1.sent = s.sent ++ [frame] ∧
      encLen frame = (if r || s.sendAll then 512 else specLen (wmObs s u)) ∧
      frame.length =
        18 + (if r || s.sendAll then 512 else specLen (wmObs s u)) := by
  refine ⟨by rw [send_result, h]; rfl, ?_⟩
  refine ⟨artdmxBytes (bufOf s u) u ((sendLenArg s u r).getD 2),
    send_sent_ok s u r h, ?_⟩
  by_cases hfull : (r || s.sendAll) = true
  · have harg : sendLenArg s u r = some 512 := by
      rcases Bool.or_eq_true_iff.1 hfull with hr | hs
      · subst hr
        by_cases hsa : s.sendAll <;> simp [sendLenArg, hsa]
      · simp [sendLenArg, hs]
    rw [harg, if_pos hfull, show (some (512 : Nat)).getD 2 = 512 from rfl,
      encLen_artdmxBytes _ _ _ (by decide),
      artdmxBytes_length _ _ _ hbuf (by decide)]
    decide
  · have hr : r = false := by
      cases r
      · rfl
      · simp at hfull
    have hsa : s.sendAll = false := by
      cases hx : s.sendAll
      · rfl
      · rw [hx] at hfull
        simp at hfull
    obtain ⟨hw1, hw2⟩ := hwm hr hsa
    have hdc : s.dataChanged u = some (wmObs s u) := by
      cases hdd : s.dataChanged u with
      | none =>
          rw [wmObs, hdd] at hw1
          simp at hw1
      | some k =>
          rw [wmObs, hdd]
          rfl
    have harg : sendLenArg s u r = some (wmObs s u) := by
      rw [sendLenArg, hr, hsa]
      simpa using hdc
    have hle : evenUp (wmObs s u) ≤ 512 := by
      simp only [evenUp]
      split <;> omega
    rw [harg, if_neg hfull, show (some (wmObs s u)).getD 2 = wmObs s u from rfl,
      encLen_artdmxBytes _ _ _ (by omega),
      artdmxBytes_length _ _ _ hbuf hle, specLen_eq_evenUp _ hw1]
    exact ⟨rfl, rfl⟩

/-- Witness for C5 (amended): at `csC` (throttle cleared, pending watermark
3, 512-entry buffer) a non-full send encodes length 4 = specLen 3 with a
4-byte payload; on a fresh client a full refresh encodes 512. -/
theorem send_payload_length_inRange_check :
    ((send csC 0 false).2 = .ok ∧
      ∃ frame, (send csC 0 false).1.sent = csC.sent ++ [frame] ∧
        encLen frame = (if false || csC.sendAll then 512 else specLen (wmObs csC 0)) ∧
        frame.length =
          18 + (if false || csC.sendAll then 512 else specLen (wmObs csC 0))) ∧
    ((send initState 5 true).2 = .ok ∧
      ∃ frame, (send initState 5 true).1.sent = initState.sent ++ [frame] ∧
        encLen frame = (if true || initState.sendAll then 512
                        else specLen (wmObs initState 5)) ∧
        frame.length =
          18 + (if true || initState.sendAll then 512
                else specLen (wmObs initState 5))) :=
  ⟨send_payload_length_inRange csC 0 false (by decide)
      (fun _ _ => by constructor <;> decide) (by decide),
   send_payload_length_inRange initState 5 true (by decide)
      (fun hf _ => by cases hf) (by decide)⟩

/-! ### Claim C8 -/

/-- Counterexample for claim C8: the data-frame encoder is not free of state effects:
on a fresh client it allocates the channel array of universe 0, mutating
`this.data[0]` from absent to a zero-filled 512-entry array. -/
theorem encoder_allocates_buffer :
    initState.data 0 = none ∧
    (artdmxPackage initState 0 (some 2)).1.data 0 =
      some (List.replicate 512 (some 0)) := by
  decide

/-- Claim C8 (amended): the trigger encoder is a pure function of its arguments
that passes the state through untouched; the data-frame encoder never
touches throttle flags, timers, watermarks, the transport log or the
configuration, leaves every observable channel value of every universe
unchanged — its sole state effect is materialising the zero-filled array of
a previously-unreferenced universe — and its output depends only on its
arguments and the channel array of the addressed universe. -/
theorem encoders_state_effects (s t : ArtnetState) (u : Nat)
    (la : Option Nat) (oem key subkey : Nat) :
    triggerPackageM s oem key subkey = (s, triggerPackage oem key subkey) ∧
    (artdmxPackage s u la).1.throttled = s.throttled ∧
    (artdmxPackage s u la).1.interval = s.interval ∧
    (artdmxPackage s u la).1.dataChanged = s.dataChanged ∧
    (artdmxPackage s u la).1.sent = s.sent ∧
    (artdmxPackage s u la).1.host = s.host ∧
    (artdmxPackage s u la).1.port = s.port ∧
    (∀ w, chObs ((artdmxPackage s u la).1) w = chObs s w) ∧
    (s.data u = t.data u → (artdmxPackage s u la).2 = (artdmxPackage t u la).2) := by
  refine ⟨rfl, artdmx_throttled s u la, artdmx_interval s u la,
    artdmx_dataChanged s u la, artdmx_sent s u la, artdmx_host s u la,
    artdmx_port s u la, ?_, ?_⟩
  · intro w
    by_cases hw : w = u
    · subst hw
      rw [chObs, bufOf, artdmx_data_self]
      rfl
    · rw [chObs, bufOf, artdmx_data_ne s u la hw]
      rfl
  · intro hdt
    rw [artdmx_snd, artdmx_snd, show bufOf s u = bufOf t u by rw [bufOf, bufOf, hdt]]

/-- Witness for C8 (amended): concrete instantiation on a fresh client and
the same client with a different host (same channel data, same output). -/
theorem encoders_state_effects_check :
    triggerPackageM initState 65535 255 0 = (initState, triggerPackage 65535 255 0) ∧
    (artdmxPackage initState 0 (some 2)).1.throttled = initState.throttled ∧
    (∀ w, chObs ((artdmxPackage initState 0 (some 2)).1) w = chObs initState w) ∧
    (artdmxPackage initState 0 (some 2)).2 =
      (artdmxPackage (setHost initState "10.0.0.1") 0 (some 2)).2 := by
  have h := encoders_state_effects initState (setHost initState "10.0.0.1") 0
    (some 2) 65535 255 0
  exact ⟨h.1, h.2.1, h.2.2.2.2.2.2.2.1, h.2.2.2.2.2.2.2.2 rfl⟩

/-- Witness for C10 (amended): on `csA` (watermark 0) an empty-array `set`
is a no-op. -/
theorem empty_set_noop_when_idle_check :
    (setOp csA (.arr []) 1 0).2 = .ok ∧
    (setOp csA (.arr []) 1 0).1.sent = csA.sent ∧
    (∀ w, wmObs (setOp csA (.arr []) 1 0).1 w = wmObs csA w) ∧
    (∀ w, chObs (setOp csA (.arr []) 1 0).1 w = chObs csA w) ∧
    (setOp csA (.arr []) 1 0).1.throttled = csA.throttled ∧
    (setOp csA (.arr []) 1 0).1.interval = csA.interval :=
  empty_set_noop_when_idle csA 1 0 (by decide)

end ArtnetModel
